import Mathlib

/-!
Verification of the Compatibility Matching Engine of the sync-up repository.

This file shallowly embeds the engine's code in Lean 4:

* `src/ml-service/location_intelligence.py` (class `NYCLocationIntelligence`):
  the neighborhood database, alias resolver, borough mapping, zone proximity
  matrix, `parse_location` and `get_proximity_score`.
* `src/ml-service/optimized_matcher.py` (class `OptimizedProfileMatcher`):
  the static tables (instrument groups, genre similarities), the six factor
  scorers, `calculate_compatibility_score` and the `find_matches` pipeline
  (cache lookup, candidate pre-filter, scoring, threshold, stable descending
  sort, truncation, cache store).
* `src/ml-service/app.py`: the parameter-validation logic of the `/match`
  and `/match/quick` endpoints.

Python floats are modelled as exact rationals (`ℚ`), Python strings as Lean
`String` (lowercasing is ASCII-only, exactly as in the data involved),
Python dicts as association lists looked up by key (all dicts built by the
code have pairwise-distinct keys, so first-match lookup agrees with Python
semantics).  Wall-clock fields (`processing_time_ms`, `search_timestamp`)
and the human-readable explanation/summary strings are not modelled: no
claim mentions them.  `round(x, 3)` is modelled as decimal rounding to three
places; the theorems below do not depend on the tie-breaking direction.
-/

/-! ### String helpers (Python `lower`, `strip`, `in`) -/

/-- ASCII lowercase of one character, as CPython's `str.lower` acts on the
ASCII range (all strings in the engine's tables are ASCII). -/
def toLowerCh (c : Char) : Char :=
  if 'A' ≤ c ∧ c ≤ 'Z' then Char.ofNat (c.toNat + 32) else c

/-- Python `s.lower()`. -/
def lowerStr (s : String) : String :=
  ⟨s.data.map toLowerCh⟩

/-- Python `s.strip()`: remove leading and trailing whitespace. -/
def stripStr (s : String) : String :=
  ⟨((s.data.dropWhile Char.isWhitespace).reverse.dropWhile Char.isWhitespace).reverse⟩

/-- `chStarts needle hay`: `needle` is an initial segment of `hay`. -/
def chStarts : List Char → List Char → Bool
  | [], _ => true
  | _ :: _, [] => false
  | c :: cs, d :: ds => c = d && chStarts cs ds

/-- `chSub needle hay`: `needle` occurs contiguously inside `hay`. -/
def chSub (needle : List Char) : List Char → Bool
  | [] => chStarts needle []
  | d :: ds => chStarts needle (d :: ds) || chSub needle ds

/-- Python `needle in hay` on strings. -/
def strIn (needle hay : String) : Bool :=
  chSub needle.data hay.data

/-- First-match association-list lookup, the model of Python dict lookup
(all dicts in this development have pairwise-distinct keys). -/
def lookupStr {α : Type} (k : String) : List (String × α) → Option α
  | [] => none
  | (k', v) :: rest => if k = k' then some v else lookupStr k rest

theorem lookupStr_mem {α : Type} {k : String} {v : α} :
    ∀ {l : List (String × α)}, lookupStr k l = some v → (k, v) ∈ l := by
  intro l
  induction l with
  | nil => intro h; simp [lookupStr] at h
  | cons e rest ih =>
    intro h
    by_cases hk : k = e.1
    · simp only [lookupStr, hk] at h
      cases e with
      | mk k1 v1 =>
        simp only [if_pos rfl] at h
        simp_all
    · cases e with
      | mk k1 v1 =>
        simp only [lookupStr, if_neg hk] at h
        exact List.mem_cons_of_mem _ (ih h)

theorem lookupStr_append_self {α : Type} {k : String} (v : α) :
    ∀ {l : List (String × α)}, lookupStr k l = none →
      lookupStr k (l ++ [(k, v)]) = some v := by
  intro l
  induction l with
  | nil => intro _; simp [lookupStr]
  | cons e rest ih =>
    intro h
    cases e with
    | mk k1 v1 =>
      by_cases hk : k = k1
      · simp [lookupStr, hk] at h
      · simp only [lookupStr, if_neg hk] at h ⊢
        exact ih h

theorem lookupStr_append_of_some {α : Type} {k : String} {v : α}
    (e : String × α) :
    ∀ {l : List (String × α)}, lookupStr k l = some v →
      lookupStr k (l ++ [e]) = some v := by
  intro l
  induction l with
  | nil => intro h; simp [lookupStr] at h
  | cons f rest ih =>
    intro h
    cases f with
    | mk k1 v1 =>
      by_cases hk : k = k1
      · simp only [lookupStr, if_pos hk] at h ⊢; exact h
      · simp only [lookupStr, if_neg hk] at h ⊢
        exact ih h

/-! ### Location intelligence: static tables
(`NYCLocationIntelligence._build_comprehensive_neighborhoods`,
`_build_borough_mapping`, `_build_location_aliases`,
`_build_proximity_matrix` in `location_intelligence.py`). -/

/-- One neighborhood record: display name, borough, zone, recognition
aliases, exactly the fields of the Python dict values. -/
structure Neighborhood where
  name : String
  borough : String
  zone : String
  aliases : List String
deriving DecidableEq

/-- The neighborhood database, in the Python dict's insertion order. -/
def neighborhoodsList : List (String × Neighborhood) := [
  ("lower_east_side", ⟨"Lower East Side", "Manhattan", "lower_manhattan",
    ["les", "lower east side", "loisaida"]⟩),
  ("east_village", ⟨"East Village", "Manhattan", "lower_manhattan",
    ["east village", "ev", "alphabet city"]⟩),
  ("west_village", ⟨"West Village", "Manhattan", "lower_manhattan",
    ["west village", "greenwich village", "the village"]⟩),
  ("soho", ⟨"SoHo", "Manhattan", "lower_manhattan",
    ["soho", "south of houston"]⟩),
  ("tribeca", ⟨"TriBeCa", "Manhattan", "lower_manhattan",
    ["tribeca", "triangle below canal"]⟩),
  ("nolita", ⟨"NoLita", "Manhattan", "lower_manhattan",
    ["nolita", "north of little italy"]⟩),
  ("chinatown", ⟨"Chinatown", "Manhattan", "lower_manhattan",
    ["chinatown"]⟩),
  ("little_italy", ⟨"Little Italy", "Manhattan", "lower_manhattan",
    ["little italy"]⟩),
  ("financial_district", ⟨"Financial District", "Manhattan", "lower_manhattan",
    ["financial district", "fidi", "wall street"]⟩),
  ("midtown", ⟨"Midtown", "Manhattan", "midtown_manhattan",
    ["midtown", "midtown manhattan", "times square area"]⟩),
  ("times_square", ⟨"Times Square", "Manhattan", "midtown_manhattan",
    ["times square", "theater district", "broadway"]⟩),
  ("hells_kitchen", ⟨"Hell's Kitchen", "Manhattan", "midtown_manhattan",
    ["hells kitchen", "hell's kitchen", "clinton"]⟩),
  ("murray_hill", ⟨"Murray Hill", "Manhattan", "midtown_manhattan",
    ["murray hill"]⟩),
  ("gramercy", ⟨"Gramercy", "Manhattan", "midtown_manhattan",
    ["gramercy", "gramercy park"]⟩),
  ("flatiron", ⟨"Flatiron", "Manhattan", "midtown_manhattan",
    ["flatiron", "flatiron district"]⟩),
  ("upper_east_side", ⟨"Upper East Side", "Manhattan", "upper_manhattan",
    ["upper east side", "ues", "carnegie hill"]⟩),
  ("upper_west_side", ⟨"Upper West Side", "Manhattan", "upper_manhattan",
    ["upper west side", "uws", "lincoln square"]⟩),
  ("harlem", ⟨"Harlem", "Manhattan", "upper_manhattan",
    ["harlem", "central harlem", "east harlem"]⟩),
  ("washington_heights", ⟨"Washington Heights", "Manhattan", "upper_manhattan",
    ["washington heights", "wa heights"]⟩),
  ("inwood", ⟨"Inwood", "Manhattan", "upper_manhattan",
    ["inwood"]⟩),
  ("williamsburg", ⟨"Williamsburg", "Brooklyn", "north_brooklyn",
    ["williamsburg", "wburg", "billyburg"]⟩),
  ("greenpoint", ⟨"Greenpoint", "Brooklyn", "north_brooklyn",
    ["greenpoint", "green point"]⟩),
  ("dumbo", ⟨"DUMBO", "Brooklyn", "north_brooklyn",
    ["dumbo", "down under manhattan bridge"]⟩),
  ("brooklyn_heights", ⟨"Brooklyn Heights", "Brooklyn", "north_brooklyn",
    ["brooklyn heights", "bk heights"]⟩),
  ("park_slope", ⟨"Park Slope", "Brooklyn", "north_brooklyn",
    ["park slope"]⟩),
  ("fort_greene", ⟨"Fort Greene", "Brooklyn", "north_brooklyn",
    ["fort greene"]⟩),
  ("prospect_heights", ⟨"Prospect Heights", "Brooklyn", "central_brooklyn",
    ["prospect heights"]⟩),
  ("crown_heights", ⟨"Crown Heights", "Brooklyn", "central_brooklyn",
    ["crown heights"]⟩),
  ("bed_stuy", ⟨"Bedford-Stuyvesant", "Brooklyn", "central_brooklyn",
    ["bed stuy", "bedstuy", "bedford stuyvesant", "bedford-stuyvesant"]⟩),
  ("clinton_hill", ⟨"Clinton Hill", "Brooklyn", "central_brooklyn",
    ["clinton hill"]⟩),
  ("carroll_gardens", ⟨"Carroll Gardens", "Brooklyn", "central_brooklyn",
    ["carroll gardens"]⟩),
  ("red_hook", ⟨"Red Hook", "Brooklyn", "south_brooklyn",
    ["red hook"]⟩),
  ("sunset_park", ⟨"Sunset Park", "Brooklyn", "south_brooklyn",
    ["sunset park"]⟩),
  ("bay_ridge", ⟨"Bay Ridge", "Brooklyn", "south_brooklyn",
    ["bay ridge"]⟩),
  ("bensonhurst", ⟨"Bensonhurst", "Brooklyn", "south_brooklyn",
    ["bensonhurst"]⟩),
  ("coney_island", ⟨"Coney Island", "Brooklyn", "south_brooklyn",
    ["coney island"]⟩),
  ("astoria", ⟨"Astoria", "Queens", "west_queens",
    ["astoria"]⟩),
  ("long_island_city", ⟨"Long Island City", "Queens", "west_queens",
    ["long island city", "lic", "hunters point"]⟩),
  ("sunnyside", ⟨"Sunnyside", "Queens", "west_queens",
    ["sunnyside"]⟩),
  ("woodside", ⟨"Woodside", "Queens", "west_queens",
    ["woodside"]⟩),
  ("elmhurst", ⟨"Elmhurst", "Queens", "central_queens",
    ["elmhurst"]⟩),
  ("jackson_heights", ⟨"Jackson Heights", "Queens", "central_queens",
    ["jackson heights"]⟩),
  ("corona", ⟨"Corona", "Queens", "central_queens",
    ["corona"]⟩),
  ("flushing", ⟨"Flushing", "Queens", "central_queens",
    ["flushing"]⟩),
  ("forest_hills", ⟨"Forest Hills", "Queens", "east_queens",
    ["forest hills"]⟩),
  ("kew_gardens", ⟨"Kew Gardens", "Queens", "east_queens",
    ["kew gardens"]⟩),
  ("jamaica", ⟨"Jamaica", "Queens", "east_queens",
    ["jamaica", "jamaica queens"]⟩),
  ("queens_village", ⟨"Queens Village", "Queens", "east_queens",
    ["queens village"]⟩),
  ("mott_haven", ⟨"Mott Haven", "Bronx", "south_bronx",
    ["mott haven"]⟩),
  ("melrose", ⟨"Melrose", "Bronx", "south_bronx",
    ["melrose"]⟩),
  ("morrisania", ⟨"Morrisania", "Bronx", "south_bronx",
    ["morrisania"]⟩),
  ("concourse", ⟨"Concourse", "Bronx", "south_bronx",
    ["concourse", "grand concourse"]⟩),
  ("fordham", ⟨"Fordham", "Bronx", "central_bronx",
    ["fordham"]⟩),
  ("tremont", ⟨"Tremont", "Bronx", "central_bronx",
    ["tremont"]⟩),
  ("belmont", ⟨"Belmont", "Bronx", "central_bronx",
    ["belmont", "little italy bronx"]⟩),
  ("morris_heights", ⟨"Morris Heights", "Bronx", "central_bronx",
    ["morris heights"]⟩),
  ("riverdale", ⟨"Riverdale", "Bronx", "north_bronx",
    ["riverdale"]⟩),
  ("kingsbridge", ⟨"Kingsbridge", "Bronx", "north_bronx",
    ["kingsbridge"]⟩),
  ("woodlawn", ⟨"Woodlawn", "Bronx", "north_bronx",
    ["woodlawn"]⟩),
  ("wakefield", ⟨"Wakefield", "Bronx", "north_bronx",
    ["wakefield"]⟩),
  ("st_george", ⟨"St. George", "Staten Island", "staten_island",
    ["st george", "saint george"]⟩),
  ("stapleton", ⟨"Stapleton", "Staten Island", "staten_island",
    ["stapleton"]⟩),
  ("new_brighton", ⟨"New Brighton", "Staten Island", "staten_island",
    ["new brighton"]⟩),
  ("great_kills", ⟨"Great Kills", "Staten Island", "staten_island",
    ["great kills"]⟩),
  ("tottenville", ⟨"Tottenville", "Staten Island", "staten_island",
    ["tottenville"]⟩)]

/-- `_build_borough_mapping`: borough name to its zones, in order. -/
def borough_mappingList : List (String × List String) := [
  ("manhattan", ["lower_manhattan", "midtown_manhattan", "upper_manhattan"]),
  ("brooklyn", ["north_brooklyn", "central_brooklyn", "south_brooklyn"]),
  ("queens", ["west_queens", "central_queens", "east_queens"]),
  ("bronx", ["south_bronx", "central_bronx", "north_bronx"]),
  ("staten_island", ["staten_island"])]

/-- The borough/city aliases added by `_build_location_aliases` after the
neighborhood aliases (`aliases.update({...})`). -/
def boroughAliasPairs : List (String × String) := [
  ("manhattan", "manhattan"),
  ("nyc", "new_york_city"),
  ("new york", "new_york_city"),
  ("new york city", "new_york_city"),
  ("brooklyn", "brooklyn"),
  ("queens", "queens"),
  ("bronx", "bronx"),
  ("the bronx", "bronx"),
  ("staten island", "staten_island"),
  ("si", "staten_island")]

/-- `_build_location_aliases`: each neighborhood's aliases (lowercased) map
to its key, in registration order, followed by the borough/city aliases.
All keys are pairwise distinct (checked below), so this association list is
observationally the Python dict. -/
def aliasesList : List (String × String) :=
  (neighborhoodsList.foldl
    (fun acc e => acc ++ e.2.aliases.map (fun a => (lowerStr a, e.1))) [])
  ++ boroughAliasPairs

/-- `_build_proximity_matrix`: zone-to-zone proximity scores. -/
def proximity_matrixList : List (String × List (String × ℕ)) := [
  ("lower_manhattan", [
    ("lower_manhattan", 100), ("midtown_manhattan", 80), ("upper_manhattan", 60),
    ("north_brooklyn", 85), ("central_brooklyn", 65), ("south_brooklyn", 45),
    ("west_queens", 70), ("central_queens", 50), ("east_queens", 35),
    ("south_bronx", 55), ("central_bronx", 40), ("north_bronx", 25),
    ("staten_island", 20)]),
  ("midtown_manhattan", [
    ("lower_manhattan", 80), ("midtown_manhattan", 100), ("upper_manhattan", 80),
    ("north_brooklyn", 75), ("central_brooklyn", 60), ("south_brooklyn", 40),
    ("west_queens", 75), ("central_queens", 55), ("east_queens", 40),
    ("south_bronx", 65), ("central_bronx", 50), ("north_bronx", 35),
    ("staten_island", 25)]),
  ("upper_manhattan", [
    ("lower_manhattan", 60), ("midtown_manhattan", 80), ("upper_manhattan", 100),
    ("north_brooklyn", 55), ("central_brooklyn", 45), ("south_brooklyn", 30),
    ("west_queens", 60), ("central_queens", 45), ("east_queens", 30),
    ("south_bronx", 75), ("central_bronx", 65), ("north_bronx", 50),
    ("staten_island", 20)]),
  ("north_brooklyn", [
    ("lower_manhattan", 85), ("midtown_manhattan", 75), ("upper_manhattan", 55),
    ("north_brooklyn", 100), ("central_brooklyn", 80), ("south_brooklyn", 60),
    ("west_queens", 70), ("central_queens", 50), ("east_queens", 35),
    ("south_bronx", 45), ("central_bronx", 35), ("north_bronx", 25),
    ("staten_island", 25)]),
  ("central_brooklyn", [
    ("lower_manhattan", 65), ("midtown_manhattan", 60), ("upper_manhattan", 45),
    ("north_brooklyn", 80), ("central_brooklyn", 100), ("south_brooklyn", 75),
    ("west_queens", 55), ("central_queens", 45), ("east_queens", 35),
    ("south_bronx", 35), ("central_bronx", 30), ("north_bronx", 20),
    ("staten_island", 30)]),
  ("south_brooklyn", [
    ("lower_manhattan", 45), ("midtown_manhattan", 40), ("upper_manhattan", 30),
    ("north_brooklyn", 60), ("central_brooklyn", 75), ("south_brooklyn", 100),
    ("west_queens", 40), ("central_queens", 35), ("east_queens", 30),
    ("south_bronx", 25), ("central_bronx", 20), ("north_bronx", 15),
    ("staten_island", 35)]),
  ("west_queens", [
    ("lower_manhattan", 70), ("midtown_manhattan", 75), ("upper_manhattan", 60),
    ("north_brooklyn", 70), ("central_brooklyn", 55), ("south_brooklyn", 40),
    ("west_queens", 100), ("central_queens", 80), ("east_queens", 65),
    ("south_bronx", 50), ("central_bronx", 40), ("north_bronx", 30),
    ("staten_island", 20)]),
  ("central_queens", [
    ("lower_manhattan", 50), ("midtown_manhattan", 55), ("upper_manhattan", 45),
    ("north_brooklyn", 50), ("central_brooklyn", 45), ("south_brooklyn", 35),
    ("west_queens", 80), ("central_queens", 100), ("east_queens", 80),
    ("south_bronx", 40), ("central_bronx", 35), ("north_bronx", 25),
    ("staten_island", 15)]),
  ("east_queens", [
    ("lower_manhattan", 35), ("midtown_manhattan", 40), ("upper_manhattan", 30),
    ("north_brooklyn", 35), ("central_brooklyn", 35), ("south_brooklyn", 30),
    ("west_queens", 65), ("central_queens", 80), ("east_queens", 100),
    ("south_bronx", 30), ("central_bronx", 25), ("north_bronx", 20),
    ("staten_island", 10)]),
  ("south_bronx", [
    ("lower_manhattan", 55), ("midtown_manhattan", 65), ("upper_manhattan", 75),
    ("north_brooklyn", 45), ("central_brooklyn", 35), ("south_brooklyn", 25),
    ("west_queens", 50), ("central_queens", 40), ("east_queens", 30),
    ("south_bronx", 100), ("central_bronx", 80), ("north_bronx", 65),
    ("staten_island", 15)]),
  ("central_bronx", [
    ("lower_manhattan", 40), ("midtown_manhattan", 50), ("upper_manhattan", 65),
    ("north_brooklyn", 35), ("central_brooklyn", 30), ("south_brooklyn", 20),
    ("west_queens", 40), ("central_queens", 35), ("east_queens", 25),
    ("south_bronx", 80), ("central_bronx", 100), ("north_bronx", 80),
    ("staten_island", 10)]),
  ("north_bronx", [
    ("lower_manhattan", 25), ("midtown_manhattan", 35), ("upper_manhattan", 50),
    ("north_brooklyn", 25), ("central_brooklyn", 20), ("south_brooklyn", 15),
    ("west_queens", 30), ("central_queens", 25), ("east_queens", 20),
    ("south_bronx", 65), ("central_bronx", 80), ("north_bronx", 100),
    ("staten_island", 5)]),
  ("staten_island", [
    ("lower_manhattan", 20), ("midtown_manhattan", 25), ("upper_manhattan", 20),
    ("north_brooklyn", 25), ("central_brooklyn", 30), ("south_brooklyn", 35),
    ("west_queens", 20), ("central_queens", 15), ("east_queens", 10),
    ("south_bronx", 15), ("central_bronx", 10), ("north_bronx", 5),
    ("staten_island", 100)])]

set_option maxRecDepth 8000 in
/-- Sanity: the alias dict's keys are pairwise distinct, so the
association-list model agrees with Python dict lookup. -/
theorem aliases_keys_nodup : (aliasesList.map Prod.fst).Nodup := by decide

/-! ### `parse_location` and `get_proximity_score`
(`location_intelligence.py`, lines 678-761). -/

/-- The `type` tag of a parse result: neighborhood, borough or city. -/
inductive ResolutionType where
  | neighborhood
  | borough
  | city
deriving DecidableEq

/-- A successful `parse_location` result.  `data_zone` is the `"zone"` field
of the carried `data` dict: present exactly for neighborhood results (the
borough and city `data` dicts of the code have no `"zone"` key, and the code
never reads one from them). -/
structure Resolution where
  rtype : ResolutionType
  key : String
  data_zone : Option String
  confidence : ℕ
deriving DecidableEq

/-- The direct-alias branch of `parse_location`: an exact alias hit that
names a registered neighborhood (confidence 100).  When the alias resolves
to a non-neighborhood key (a borough or city alias), the Python code falls
through, which this `Option` result models by `none`. -/
def directMatch (t : String) : Option Resolution :=
  match lookupStr t aliasesList with
  | some nk =>
    match lookupStr nk neighborhoodsList with
    | some nd => some ⟨.neighborhood, nk, some nd.zone, 100⟩
    | none => none
  | none => none

/-- The substring-containment loop of `parse_location` (confidence 80):
first alias, in dict order, containing or contained in the text and naming
a registered neighborhood. -/
def aliasScan (t : String) : List (String × String) → Option Resolution
  | [] => none
  | (al, nk) :: rest =>
    if strIn al t || strIn t al then
      match lookupStr nk neighborhoodsList with
      | some nd => some ⟨.neighborhood, nk, some nd.zone, 80⟩
      | none => aliasScan t rest
    else aliasScan t rest

/-- The borough names tried by `parse_location`'s borough loop, in order. -/
def boroughNames : List String :=
  ["manhattan", "brooklyn", "queens", "bronx", "staten island"]

/-- The borough-level branch of `parse_location` (confidence 60). -/
def boroughScan (t : String) : List String → Option Resolution
  | [] => none
  | b :: rest =>
    if strIn b t then some ⟨.borough, b, none, 60⟩ else boroughScan t rest

/-- The generic-city branch of `parse_location` (confidence 40). -/
def cityMatch (t : String) : Option Resolution :=
  if ["new york", "nyc", "ny"].any (fun term => strIn term t) then
    some ⟨.city, "new_york_city", none, 40⟩
  else none

/-- The four resolution rules of `parse_location`, tried in order on the
lowercased, stripped text. -/
def parseNormalized (t : String) : Option Resolution :=
  match directMatch t with
  | some r => some r
  | none =>
    match aliasScan t aliasesList with
    | some r => some r
    | none =>
      match boroughScan t boroughNames with
      | some r => some r
      | none => cityMatch t

/-- `NYCLocationIntelligence.parse_location`: empty text fails; otherwise
the text is lowercased and stripped and the four rules are tried in order. -/
def parse_location (location_text : String) : Option Resolution :=
  if location_text = "" then none
  else parseNormalized (lowerStr (stripStr location_text))

/-- The representative zone used by `get_proximity_score`: a neighborhood's
own zone, or the first zone found under the borough key in
`borough_mapping` (`zones[0] if zones else None`); city results have no
zone. -/
def reprZone (p : Resolution) : Option String :=
  match p.rtype with
  | .neighborhood => p.data_zone
  | .borough => ((lookupStr p.key borough_mappingList).getD []).head?
  | .city => none

/-- `NYCLocationIntelligence.get_proximity_score` (0-100). -/
def get_proximity_score (location1 location2 : String) : ℕ :=
  match parse_location location1, parse_location location2 with
  | some p1, some p2 =>
    if p1.key = p2.key then 100
    else
      match reprZone p1, reprZone p2 with
      | some z1, some z2 =>
        match lookupStr z1 proximity_matrixList with
        | some row => (lookupStr z2 row).getD 0
        | none => 20
      | _, _ => 20
  | _, _ => 0

/-- Both-sided proximity matrix lookup. -/
def matrixEntry (z1 z2 : String) : Option ℕ :=
  (lookupStr z1 proximity_matrixList).bind (fun row => lookupStr z2 row)

/-! ### Matcher static tables and profile features
(`optimized_matcher.py`, `_define_instrument_groups`,
`_define_genre_similarities`, `_precompute_profile_features`). -/

/-- `_define_instrument_groups`, in the Python dict's insertion order. -/
def instrument_groupsList : List (String × List String) := [
  ("rhythm_section", ["bass", "drums"]),
  ("harmony", ["piano", "guitar", "organ", "synthesizer", "accordion"]),
  ("melody", ["vocals", "violin", "saxophone", "trumpet", "flute", "cello"]),
  ("world", ["oud", "sitar", "kora", "erhu", "shamisen", "tabla", "djembe"]),
  ("folk", ["fiddle", "mandolin", "banjo", "ukulele", "harmonica"]),
  ("percussion", ["drums", "percussion", "djembe", "tabla", "talking drum"]),
  ("strings", ["guitar", "bass", "violin", "cello", "mandolin", "sitar", "kora"]),
  ("winds", ["saxophone", "trumpet", "flute", "clarinet", "oboe"]),
  ("keyboards", ["piano", "organ", "synthesizer", "accordion"])]

/-- `_define_genre_similarities`. -/
def genre_similaritiesList : List (String × List (String × ℚ)) := [
  ("jazz", [
    ("jazz", 1), ("blues", 8/10), ("soul", 7/10), ("fusion", 9/10),
    ("bebop", 9/10), ("hard bop", 9/10), ("contemporary jazz", 8/10),
    ("latin jazz", 7/10), ("neo-soul", 6/10)]),
  ("rock", [
    ("rock", 1), ("indie rock", 9/10), ("alternative", 8/10), ("blues", 7/10),
    ("funk", 6/10), ("pop", 5/10), ("indie", 8/10), ("post-rock", 7/10)]),
  ("blues", [
    ("blues", 1), ("jazz", 8/10), ("rock", 7/10), ("soul", 8/10),
    ("r&b", 7/10), ("gospel", 6/10), ("country", 5/10), ("americana", 6/10)]),
  ("soul", [
    ("soul", 1), ("r&b", 9/10), ("neo-soul", 9/10), ("gospel", 8/10),
    ("jazz", 7/10), ("blues", 8/10), ("funk", 7/10)]),
  ("folk", [
    ("folk", 1), ("indie folk", 9/10), ("americana", 8/10), ("country", 7/10),
    ("singer-songwriter", 8/10), ("bluegrass", 6/10), ("celtic", 5/10)]),
  ("classical", [
    ("classical", 1), ("chamber", 9/10), ("contemporary classical", 8/10),
    ("opera", 7/10), ("baroque", 8/10), ("romantic", 8/10)]),
  ("world music", [
    ("world music", 1), ("world fusion", 8/10), ("traditional", 7/10),
    ("ethnic", 8/10), ("cultural", 7/10)])]

/-- A musician profile, with the engine-relevant fields of the profile
dicts (`id` stands for the opaque identifier; absent optional fields are
`none`, absent list fields are `[]`). -/
structure Profile where
  id : String
  instruments : List String
  location : Option String
  availability : Option String
  genres : List String
  musical_influences : List String
  collaboration_intent : Option String
deriving DecidableEq

/-- The instrument-group list computed by `_precompute_profile_features`
for a profile (and, with the same contents, the query-side group set built
inline in `score_instrument_compatibility` and in the pre-filter): every
group whose member list contains a lowercased instrument, in group-table
order, without duplicates. -/
def instGroupsOf (instruments : List String) : List String :=
  instruments.foldl
    (fun acc inst =>
      instrument_groupsList.foldl
        (fun a e =>
          if e.2.contains (lowerStr inst) && !(a.contains e.1) then a ++ [e.1]
          else a)
        acc)
    []

/-- `profile['_instrument_groups']` as precomputed at load time. -/
def profileGroups (p : Profile) : List String :=
  instGroupsOf p.instruments

/-- `profile['_genre_keys']` as precomputed at load time. -/
def genreKeys (p : Profile) : List String :=
  p.genres.map lowerStr

/-- `profile['_influence_keys']` as precomputed at load time. -/
def influenceKeys (p : Profile) : List String :=
  p.musical_influences.map lowerStr

/-! ### The six factor scorers (`optimized_matcher.py`, lines 150-340). -/

/-- The `complementary_pairs` list of `score_instrument_compatibility`. -/
def complementary_pairsList : List (String × String) := [
  ("rhythm_section", "harmony"),
  ("rhythm_section", "melody"),
  ("harmony", "melody"),
  ("strings", "percussion"),
  ("winds", "rhythm_section")]

/-- `(q_group, p_group) in complementary_pairs or (p_group, q_group) in
complementary_pairs`. -/
def isCompPair (qg pg : String) : Bool :=
  complementary_pairsList.any (fun e => e.1 == qg && e.2 == pg)
  || complementary_pairsList.any (fun e => e.1 == pg && e.2 == qg)

/-- The nested maximum loop of `score_instrument_compatibility`: same group
raises the score to 0.7, a complementary pair to 0.8. -/
def instrumentGroupScore (query_groups profile_groups : List String) : ℚ :=
  query_groups.foldl
    (fun s qg =>
      profile_groups.foldl
        (fun s2 pg =>
          if qg = pg then max s2 (7/10)
          else if isCompPair qg pg then max s2 (8/10)
          else s2)
        s)
    0

/-- Non-empty intersection of the lowercased instrument sets
(`exact_matches > 0`). -/
def hasSharedInstrument (qi pi : List String) : Bool :=
  (qi.map lowerStr).any (fun x => (pi.map lowerStr).contains x)

/-- `OptimizedProfileMatcher.score_instrument_compatibility`. -/
def score_instrument_compatibility (query_instruments : List String)
    (profile : Profile) : ℚ :=
  if query_instruments.isEmpty then 1/2
  else if profile.instruments.isEmpty then 0
  else if hasSharedInstrument query_instruments profile.instruments then 1
  else instrumentGroupScore (instGroupsOf query_instruments) (profileGroups profile)

/-- The loop body of `score_genre_compatibility`: for each query genre in
order, an exact hit in the profile's genre keys returns 1.0 immediately;
otherwise the similarity-table row for the query genre (when present)
raises the running maximum over all profile genres (`row.get(pg, 0.0)`). -/
def genreLoop (pkeys : List String) : List String → ℚ → ℚ
  | [], acc => acc
  | g :: rest, acc =>
    let ql := lowerStr g
    if pkeys.contains ql then 1
    else
      match lookupStr ql genre_similaritiesList with
      | some row =>
        genreLoop pkeys rest
          (pkeys.foldl (fun m pg => max m ((lookupStr pg row).getD 0)) acc)
      | none => genreLoop pkeys rest acc

/-- `OptimizedProfileMatcher.score_genre_compatibility`. -/
def score_genre_compatibility (query_genres : List String) (profile : Profile) : ℚ :=
  if query_genres.isEmpty then 1/2
  else if (genreKeys profile).isEmpty then 3/10
  else genreLoop (genreKeys profile) query_genres 0

/-- Python truthiness of an optional string (`None` and `""` are falsy). -/
def optFalsy : Option String → Bool
  | none => true
  | some s => s = ""

/-- `OptimizedProfileMatcher.score_location_compatibility`.  The Python
`try` block never raises (`get_proximity_score` is total), so the fallback
string-matching branch is dead code and does not appear here. -/
def score_location_compatibility (query_location : Option String)
    (profile : Profile) : ℚ :=
  if optFalsy query_location then 1/2
  else if optFalsy profile.location then 2/5
  else ((get_proximity_score (query_location.getD "") (profile.location.getD "") : ℚ)) / 100

/-- `OptimizedProfileMatcher.score_availability_compatibility`. -/
def score_availability_compatibility (query_availability profile_availability :
    Option String) : ℚ :=
  if optFalsy query_availability || optFalsy profile_availability then 1/2
  else
    let ql := lowerStr (query_availability.getD "")
    let pl := lowerStr (profile_availability.getD "")
    if ql = pl then 1
    else if strIn "flexible" ql || strIn "flexible" pl then 3/4
    else if (strIn "evening" ql && strIn "evening" pl)
         || (strIn "weekend" ql && strIn "weekend" pl) then 9/10
    else if (strIn "twice" ql && strIn "twice" pl)
         || (strIn "once" ql && strIn "once" pl) then 9/10
    else 45/100

/-- `OptimizedProfileMatcher.score_musical_influence_compatibility`:
`exact_matches` is the size of the intersection of the lowercased query
influence set with the precomputed profile influence-key set. -/
def score_musical_influence_compatibility (query_influences : List String)
    (profile : Profile) : ℚ :=
  if query_influences.isEmpty then 1/2
  else if (influenceKeys profile).isEmpty then 2/5
  else
    let n := ((query_influences.map lowerStr).dedup.filter
      (fun x => (influenceKeys profile).contains x)).length
    if 0 < n then min 1 (8/10 + (n : ℚ) * (1/10)) else 35/100

/-- The collaboration-intent block inlined in
`calculate_compatibility_score` (lines 325-335). -/
def score_collaboration_intent (query_intent profile_intent : Option String) : ℚ :=
  if !(optFalsy query_intent) && !(optFalsy profile_intent) then
    let ql := lowerStr (query_intent.getD "")
    let pl := lowerStr (profile_intent.getD "")
    if ql = pl then 1
    else if strIn "band" ql && strIn "band" pl then 9/10
    else 6/10
  else 7/10

/-! ### Overall score (`calculate_compatibility_score`, lines 289-340). -/

/-- The searcher's parsed query, with the fields the engine reads. -/
structure Query where
  instruments : List String
  location : Option String
  availability : Option String
  musical_influences : List String
  collaboration_intent : Option String
deriving DecidableEq

/-- The per-factor score breakdown (the `scores` dict). -/
structure FactorScores where
  instruments : ℚ
  genres : ℚ
  location : ℚ
  availability : ℚ
  influences : ℚ
  collaboration_intent : ℚ
deriving DecidableEq

/-- `OptimizedProfileMatcher.calculate_compatibility_score`: the six factor
scores (the query's `musical_influences` double as its genre list) and
their weighted sum with weights 0.30, 0.20, 0.15, 0.15, 0.15, 0.05. -/
def calculate_compatibility_score (query : Query) (profile : Profile) :
    ℚ × FactorScores :=
  let si := score_instrument_compatibility query.instruments profile
  let sg := score_genre_compatibility query.musical_influences profile
  let sl := score_location_compatibility query.location profile
  let sa := score_availability_compatibility query.availability profile.availability
  let sf := score_musical_influence_compatibility query.musical_influences profile
  let sc := score_collaboration_intent query.collaboration_intent
    profile.collaboration_intent
  ((3/10) * si + (2/10) * sg + (15/100) * sl + (15/100) * sa + (15/100) * sf
      + (5/100) * sc,
    ⟨si, sg, sl, sa, sf, sc⟩)

/-! ### The matching pipeline (`find_matches`, lines 342-417). -/

/-- `round(x, 3)`: rounding to three decimal places.  (Python rounds the
nearest binary double to even at exact half-thousandths; no theorem below
depends on the tie direction.) -/
def round3 (q : ℚ) : ℚ :=
  (round (q * 1000) : ℚ) / 1000

/-- One entry of the `matches` list.  `score` is the raw
`compatibility_score` computed at line 382, `compatibility_score` the
rounded value stored in the match dict (line 390); `detailed_scores` the
breakdown (its rounding to three places is display-only and kept exact
here).  The stored profile is the cleaned profile, which carries exactly
the `Profile` fields. -/
structure MatchEntry where
  profile : Profile
  score : ℚ
  compatibility_score : ℚ
  detailed_scores : FactorScores
deriving DecidableEq

/-- The sort key relation of `matches.sort(key=..., reverse=True)`:
descending by stored (rounded) compatibility score.  Python's sort is
stable, and a stable sort by a total preorder is unique, so Mathlib's
`List.insertionSort` with this relation (proved sorted and stable below)
computes the same list. -/
def entryGE (a b : MatchEntry) : Prop :=
  b.compatibility_score ≤ a.compatibility_score

instance : DecidableRel entryGE := fun a b =>
  inferInstanceAs (Decidable (b.compatibility_score ≤ a.compatibility_score))

instance : IsTotal MatchEntry entryGE :=
  ⟨fun a b => le_total b.compatibility_score a.compatibility_score⟩

instance : IsTrans MatchEntry entryGE :=
  ⟨fun _ _ _ hab hbc => le_trans hbc hab⟩

/-- The candidate pre-filter (lines 360-379): with query instruments
present, keep profiles sharing an instrument or an instrument group with
the query; otherwise all profiles are candidates. -/
def candidateFilter (profiles : List Profile) (query : Query) : List Profile :=
  if query.instruments.isEmpty then profiles
  else
    profiles.filter (fun p =>
      hasSharedInstrument query.instruments p.instruments
      || (profileGroups p).any (fun g => (instGroupsOf query.instruments).contains g))

/-- The body of the scoring loop (lines 381-394): a candidate whose raw
score reaches `min_compatibility` becomes a match entry, the rest are
dropped. -/
def scoreEntry (query : Query) (min_compatibility : ℚ) (p : Profile) :
    Option MatchEntry :=
  if min_compatibility ≤ (calculate_compatibility_score query p).1 then
    some ⟨p, (calculate_compatibility_score query p).1,
      round3 (calculate_compatibility_score query p).1,
      (calculate_compatibility_score query p).2⟩
  else none

/-- Scoring and thresholding over the filtered candidates. -/
def scoredMatches (profiles : List Profile) (query : Query)
    (min_compatibility : ℚ) : List MatchEntry :=
  (candidateFilter profiles query).filterMap (scoreEntry query min_compatibility)

/-- Stage 5, ranking: stable descending sort by stored score. -/
def rankedMatches (profiles : List Profile) (query : Query)
    (min_compatibility : ℚ) : List MatchEntry :=
  List.insertionSort entryGE (scoredMatches profiles query min_compatibility)

/-- The result dict of `find_matches` (timing and timestamp fields are
wall-clock and not modelled; `query_summary` is display-only).
`matchList` models the `"matches"` entry (`matches` is reserved in Lean). -/
structure MatchResponse where
  matchList : List MatchEntry
  total_found : ℕ
  from_cache : Bool
deriving DecidableEq

/-- The cache key: the md5 fingerprint of the sorted-key JSON dump of the
query joined with both parameters is a deterministic, and modulo md5
collisions injective, function of `(query, min_compatibility,
max_results)`; the key is modelled by that triple directly. -/
abbrev CacheKey : Type := Query × ℚ × ℕ

/-- Cache lookup (Python dict membership). -/
def cacheLookup (k : CacheKey) : List (CacheKey × MatchResponse) → Option MatchResponse
  | [] => none
  | (k', v) :: rest => if k = k' then some v else cacheLookup k rest

/-- The mutable state of an `OptimizedProfileMatcher`: the loaded,
feature-precomputed profiles and the query cache. -/
structure MatcherState where
  profiles : List Profile
  cache : List (CacheKey × MatchResponse)

/-- The non-cached computation of `find_matches` (lines 358-411): filter,
score, threshold, sort, truncate to `max_results`. -/
def computeResult (st : MatcherState) (query : Query) (min_compatibility : ℚ)
    (max_results : ℕ) : MatchResponse :=
  ⟨(rankedMatches st.profiles query min_compatibility).take max_results,
    ((rankedMatches st.profiles query min_compatibility).take max_results).length,
    false⟩

/-- `OptimizedProfileMatcher.find_matches`: serve a cache hit annotated
`from_cache = True`; otherwise compute, and store the result only while
the cache holds fewer than 100 entries (line 414). -/
def find_matches (st : MatcherState) (query : Query) (min_compatibility : ℚ)
    (max_results : ℕ) : MatchResponse × MatcherState :=
  match cacheLookup (query, min_compatibility, max_results) st.cache with
  | some r => ({ r with from_cache := true }, st)
  | none =>
    (computeResult st query min_compatibility max_results,
      if st.cache.length < 100 then
        { st with
            cache := st.cache ++ [((query, min_compatibility, max_results),
              computeResult st query min_compatibility max_results)] }
      else st)

/-! ### HTTP-boundary parameter validation (`app.py`). -/

/-- The `/match` endpoint's handling of `min_compatibility` and
`max_results` (`app.py` lines 544-561): both are range-checked and an
explicit 400 error is returned before the matcher runs.  (`max_results`
is modelled as `ℕ`; negative values are likewise rejected by the code's
`< 1` check.) -/
def matchEndpoint (st : MatcherState) (query : Query) (min_compatibility : ℚ)
    (max_results : ℕ) : Except String (MatchResponse × MatcherState) :=
  if min_compatibility < 0 ∨ 1 < min_compatibility then
    .error "min_compatibility must be a number between 0 and 1"
  else if max_results < 1 ∨ 100 < max_results then
    .error "max_results must be an integer between 1 and 100"
  else .ok (find_matches st query min_compatibility max_results)

/-- The `/match/quick` endpoint (`app.py` lines 572-627): after query
parsing succeeds, `min_compatibility` and `max_results` are read from the
request and passed to `find_matches` with no range validation at all. -/
def quickMatchEndpoint (st : MatcherState) (query : Query) (min_compatibility : ℚ)
    (max_results : ℕ) : Except String (MatchResponse × MatcherState) :=
  .ok (find_matches st query min_compatibility max_results)

/-- `true` exactly when an endpoint answered with a validation failure. -/
def isRejected {α : Type} : Except String α → Bool
  | .error _ => true
  | .ok _ => false

/-! ### Comparison definitions written from the claims' words
(used only to settle C2 and C3, never as a model of the code). -/

/-- The full pipeline with the candidate pre-filter removed — the baseline
named by claim C2's words "scoring all profiles without the pre-filter". -/
def computeResultUnfiltered (st : MatcherState) (query : Query)
    (min_compatibility : ℚ) (max_results : ℕ) : MatchResponse :=
  ⟨((List.insertionSort entryGE
      (st.profiles.filterMap (scoreEntry query min_compatibility))).take
        max_results),
    ((List.insertionSort entryGE
      (st.profiles.filterMap (scoreEntry query min_compatibility))).take
        max_results).length,
    false⟩

/-- Spaces to underscores, the normalization relating a resolved borough
name ("staten island") to its registration key ("staten_island"). -/
def underscoreStr (s : String) : String :=
  ⟨s.data.map (fun c => if c = ' ' then '_' else c)⟩

/-- Modelled from the claim (C3): "each side is mapped to a representative
zone (a neighborhood's own zone, or the borough's first-registered zone)".
For a borough-level resolution this reads the first zone registered for
that borough, i.e. the borough's entry in the zone mapping under its
registered key. -/
def claimReprZone (p : Resolution) : Option String :=
  match p.rtype with
  | .neighborhood => p.data_zone
  | .borough => (lookupStr (underscoreStr p.key) borough_mappingList).bind List.head?
  | .city => none

/-- Modelled from the claim (C3): the proximity score as the claim's words
describe it — 0 on resolution failure, 100 on identical keys, else the
ProximityMatrix entry for the representative zones, with 20 when either
side has no representable zone. -/
def claimProximityScore (location1 location2 : String) : ℕ :=
  match parse_location location1, parse_location location2 with
  | some p1, some p2 =>
    if p1.key = p2.key then 100
    else
      match claimReprZone p1, claimReprZone p2 with
      | some z1, some z2 => (matrixEntry z1 z2).getD 20
      | _, _ => 20
  | _, _ => 0

/-! ### Characterization of the instrument group score -/

/-- Some query group and profile group form a complementary pair. -/
def anyCompGroups (qgs pgs : List String) : Bool :=
  qgs.any (fun qg => pgs.any (fun pg => isCompPair qg pg))

/-- Some group is shared between query and profile. -/
def anySharedGroup (qgs pgs : List String) : Bool :=
  qgs.any (fun qg => pgs.contains qg)

/-- The value the complementary-pair relation can never hold reflexively:
every pair in the table has two distinct groups. -/
theorem isCompPair_ne {qg pg : String} (h : isCompPair qg pg = true) :
    qg ≠ pg := by
  intro he
  subst he
  unfold isCompPair complementary_pairsList at h
  simp only [List.any_cons, List.any_nil, Bool.or_false, Bool.or_eq_true,
    Bool.and_eq_true, beq_iff_eq] at h
  rcases h with (h | h | h | h | h) | (h | h | h | h | h) <;>
    · obtain ⟨h1, h2⟩ := h
      rw [← h1] at h2
      exact absurd h2 (by decide)

/-- The best score a single query group can pick up against the profile
groups: 0.8 with a complementary partner, else 0.7 when the group itself
occurs, else 0. -/
def innerVal (qg : String) (pgs : List String) : ℚ :=
  if pgs.any (fun pg => isCompPair qg pg) then 8/10
  else if pgs.contains qg then 7/10
  else 0

theorem innerVal_nonneg (qg : String) (pgs : List String) : 0 ≤ innerVal qg pgs := by
  unfold innerVal
  split_ifs <;> norm_num

theorem innerVal_le (qg : String) (pgs : List String) : innerVal qg pgs ≤ 8/10 := by
  unfold innerVal
  split_ifs <;> norm_num

/-- The inner loop of `instrumentGroupScore` raises the accumulator to
exactly `innerVal`. -/
theorem innerFold_eq (qg : String) :
    ∀ (pgs : List String) (s : ℚ), 0 ≤ s →
      pgs.foldl
        (fun s2 pg =>
          if qg = pg then max s2 (7/10)
          else if isCompPair qg pg then max s2 (8/10)
          else s2) s
      = max s (innerVal qg pgs) := by
  intro pgs
  induction pgs with
  | nil =>
    intro s hs
    simp [innerVal, max_eq_left hs]
  | cons pg rest ih =>
    intro s hs
    simp only [List.foldl_cons]
    by_cases heq : qg = pg
    · subst heq
      rw [if_pos rfl, ih (max s (7/10)) (le_trans hs (le_max_left _ _))]
      have hirr : isCompPair qg qg = false := by
        cases hb : isCompPair qg qg with
        | false => rfl
        | true => exact absurd rfl (isCompPair_ne hb)
      have hstep : innerVal qg (qg :: rest)
          = if rest.any (fun pg => isCompPair qg pg) then (8/10 : ℚ) else 7/10 := by
        simp [innerVal, List.any_cons, hirr, List.contains_cons]
      rw [hstep]
      by_cases hrest : rest.any (fun pg => isCompPair qg pg) = true
      · have hr : innerVal qg rest = 8/10 := by simp [innerVal, hrest]
        rw [hr, if_pos hrest, max_assoc,
          max_eq_right (by norm_num : (7/10 : ℚ) ≤ 8/10)]
      · rw [if_neg hrest]
        have hr : innerVal qg rest = if rest.contains qg then (7/10 : ℚ) else 0 := by
          simp only [innerVal]
          rw [if_neg hrest]
        rw [hr]
        by_cases hc : rest.contains qg = true
        · rw [if_pos hc, max_assoc, max_self]
        · rw [if_neg hc, max_assoc, max_eq_left (by norm_num : (0 : ℚ) ≤ 7/10)]
    · rw [if_neg heq]
      by_cases hcomp : isCompPair qg pg = true
      · rw [if_pos hcomp, ih (max s (8/10)) (le_trans hs (le_max_left _ _))]
        have h8 : innerVal qg (pg :: rest) = 8/10 := by
          simp [innerVal, List.any_cons, hcomp]
        rw [h8, max_assoc, max_eq_left (innerVal_le qg rest)]
      · rw [if_neg hcomp, ih s hs]
        have hc : isCompPair qg pg = false := by
          cases hb : isCompPair qg pg with
          | false => rfl
          | true => exact absurd hb hcomp
        have hne1 : (qg == pg) = false := beq_eq_false_iff_ne.mpr heq
        have hne2 : (pg == qg) = false :=
          beq_eq_false_iff_ne.mpr (fun hpq => heq hpq.symm)
        have heqv : innerVal qg (pg :: rest) = innerVal qg rest := by
          simp [innerVal, List.any_cons, hc, List.contains_cons, hne1, hne2, heq]
        rw [heqv]

/-- The closed form of the double maximum loop. -/
def outerVal (qgs pgs : List String) : ℚ :=
  if anyCompGroups qgs pgs then 8/10
  else if anySharedGroup qgs pgs then 7/10
  else 0

theorem outerVal_nonneg (qgs pgs : List String) : 0 ≤ outerVal qgs pgs := by
  unfold outerVal
  split_ifs <;> norm_num

/-- Case table for combining one query group's best value with the rest's
best value. -/
theorem max_if_helper (a b c d : Bool) :
    max (if a then (8 : ℚ)/10 else if c then 7/10 else 0)
        (if b then (8 : ℚ)/10 else if d then 7/10 else 0)
      = if a || b then (8 : ℚ)/10 else if c || d then 7/10 else 0 := by
  cases a <;> cases b <;> cases c <;> cases d <;> norm_num [max_def]

theorem outerFold_eq :
    ∀ (qgs pgs : List String) (s : ℚ), 0 ≤ s →
      qgs.foldl
        (fun s1 qg =>
          pgs.foldl
            (fun s2 pg =>
              if qg = pg then max s2 (7/10)
              else if isCompPair qg pg then max s2 (8/10)
              else s2) s1) s
      = max s (outerVal qgs pgs) := by
  intro qgs
  induction qgs with
  | nil =>
    intro pgs s hs
    simp [outerVal, anyCompGroups, anySharedGroup, max_eq_left hs]
  | cons qg rest ih =>
    intro pgs s hs
    simp only [List.foldl_cons]
    rw [innerFold_eq qg pgs s hs, ih pgs _ (le_trans hs (le_max_left _ _)),
      max_assoc]
    congr 1
    unfold innerVal outerVal anyCompGroups anySharedGroup
    simp only [List.any_cons]
    exact max_if_helper _ _ _ _

/-- `instrumentGroupScore` in closed form: 0.8 as soon as any
query-group/profile-group pair is complementary, else 0.7 with any shared
group, else 0. -/
theorem instrumentGroupScore_eq (qgs pgs : List String) :
    instrumentGroupScore qgs pgs =
      if anyCompGroups qgs pgs then 8/10
      else if anySharedGroup qgs pgs then 7/10
      else 0 := by
  unfold instrumentGroupScore
  rw [outerFold_eq qgs pgs 0 le_rfl, max_eq_right (outerVal_nonneg qgs pgs)]
  rfl

theorem score_instrument_bounds (qi : List String) (p : Profile) :
    0 ≤ score_instrument_compatibility qi p
    ∧ score_instrument_compatibility qi p ≤ 1 := by
  unfold score_instrument_compatibility
  split_ifs
  · norm_num
  · norm_num
  · norm_num
  · rw [instrumentGroupScore_eq]
    split_ifs <;> norm_num

/-! ### Bounds for the remaining factors -/

/-- Every similarity in the genre table lies in [0, 1] (checked on the
literal data). -/
theorem genre_table_bounded :
    genre_similaritiesList.all
      (fun r => r.2.all (fun e => decide (0 ≤ e.2) && decide (e.2 ≤ 1))) = true := by
  with_unfolding_all decide

theorem genre_row_value_bounds {ql : String} {row : List (String × ℚ)}
    (h : lookupStr ql genre_similaritiesList = some row) (pg : String) :
    0 ≤ (lookupStr pg row).getD 0 ∧ (lookupStr pg row).getD 0 ≤ 1 := by
  cases hv : lookupStr pg row with
  | none => simp
  | some v =>
    have hrow := List.all_eq_true.mp genre_table_bounded _ (lookupStr_mem h)
    have hval := List.all_eq_true.mp hrow _ (lookupStr_mem hv)
    simp only [Bool.and_eq_true, decide_eq_true_eq] at hval
    simpa using hval

/-- A fold of maxima over values in [0, 1] stays in [0, 1]. -/
theorem foldl_max_bound {α : Type} (f : α → ℚ)
    (hf : ∀ x, 0 ≤ f x ∧ f x ≤ 1) :
    ∀ (l : List α) (acc : ℚ), 0 ≤ acc → acc ≤ 1 →
      0 ≤ l.foldl (fun m x => max m (f x)) acc
      ∧ l.foldl (fun m x => max m (f x)) acc ≤ 1 := by
  intro l
  induction l with
  | nil => intro acc h0 h1; exact ⟨h0, h1⟩
  | cons x rest ih =>
    intro acc h0 h1
    simp only [List.foldl_cons]
    exact ih _ (le_trans h0 (le_max_left _ _))
      (max_le h1 (hf x).2)

theorem genreLoop_bound (pkeys : List String) :
    ∀ (l : List String) (acc : ℚ), 0 ≤ acc → acc ≤ 1 →
      0 ≤ genreLoop pkeys l acc ∧ genreLoop pkeys l acc ≤ 1 := by
  intro l
  induction l with
  | nil =>
    intro acc h0 h1
    exact ⟨h0, h1⟩
  | cons g rest ih =>
    intro acc h0 h1
    show 0 ≤ genreLoop pkeys (g :: rest) acc ∧ genreLoop pkeys (g :: rest) acc ≤ 1
    unfold genreLoop
    by_cases hc : pkeys.contains (lowerStr g) = true
    · simp only [hc, if_true]
      norm_num
    · simp only [Bool.not_eq_true] at hc
      simp only [hc, Bool.false_eq_true, if_false]
      cases hrow : lookupStr (lowerStr g) genre_similaritiesList with
      | some row =>
        have hb := foldl_max_bound (fun pg => (lookupStr pg row).getD 0)
          (genre_row_value_bounds hrow) pkeys acc h0 h1
        exact ih _ hb.1 hb.2
      | none => exact ih acc h0 h1

theorem score_genre_bounds (qg : List String) (p : Profile) :
    0 ≤ score_genre_compatibility qg p ∧ score_genre_compatibility qg p ≤ 1 := by
  unfold score_genre_compatibility
  split_ifs
  · norm_num
  · norm_num
  · exact genreLoop_bound (genreKeys p) qg 0 le_rfl (by norm_num)

/-- Every proximity matrix value is at most 100 (checked on the data). -/
theorem matrix_values_le :
    proximity_matrixList.all
      (fun r => r.2.all (fun e => decide (e.2 ≤ 100))) = true := by
  decide

/-- `get_proximity_score` never exceeds 100, whatever the inputs. -/
theorem get_proximity_score_le (l1 l2 : String) :
    get_proximity_score l1 l2 ≤ 100 := by
  unfold get_proximity_score
  cases parse_location l1 with
  | none => norm_num
  | some p1 =>
    cases parse_location l2 with
    | none => norm_num
    | some p2 =>
      simp only
      split_ifs
      · norm_num
      · cases reprZone p1 with
        | none => norm_num
        | some z1 =>
          cases reprZone p2 with
          | none => norm_num
          | some z2 =>
            simp only
            cases hrow : lookupStr z1 proximity_matrixList with
            | none => norm_num
            | some row =>
              cases hv : lookupStr z2 row with
              | none => simp [hv]
              | some v =>
                have hr := List.all_eq_true.mp matrix_values_le _ (lookupStr_mem hrow)
                have hval := List.all_eq_true.mp hr _ (lookupStr_mem hv)
                dsimp only
                rw [hv]
                simpa using hval

theorem score_location_bounds (ql : Option String) (p : Profile) :
    0 ≤ score_location_compatibility ql p
    ∧ score_location_compatibility ql p ≤ 1 := by
  unfold score_location_compatibility
  split_ifs
  · norm_num
  · norm_num
  · constructor
    · positivity
    · rw [div_le_one (by norm_num : (0 : ℚ) < 100)]
      exact_mod_cast get_proximity_score_le (ql.getD "") (p.location.getD "")

theorem score_availability_bounds (qa pa : Option String) :
    0 ≤ score_availability_compatibility qa pa
    ∧ score_availability_compatibility qa pa ≤ 1 := by
  unfold score_availability_compatibility
  dsimp only
  split_ifs <;> norm_num

theorem score_influence_bounds (qi : List String) (p : Profile) :
    0 ≤ score_musical_influence_compatibility qi p
    ∧ score_musical_influence_compatibility qi p ≤ 1 := by
  unfold score_musical_influence_compatibility
  dsimp only
  split_ifs
  · norm_num
  · norm_num
  · refine ⟨le_min (by norm_num) (by positivity), min_le_left _ _⟩
  · norm_num

theorem score_intent_bounds (qc pc : Option String) :
    0 ≤ score_collaboration_intent qc pc
    ∧ score_collaboration_intent qc pc ≤ 1 := by
  unfold score_collaboration_intent
  dsimp only
  split_ifs <;> norm_num

/-! ### Zone validity of parse results and matrix totality -/

/-- `z` is a registered zone (a row of the proximity matrix). -/
def isMatrixKey (z : String) : Bool :=
  (lookupStr z proximity_matrixList).isSome

set_option maxRecDepth 4000 in
/-- Every neighborhood's zone is a registered matrix zone. -/
theorem neighborhoods_zones_valid :
    neighborhoodsList.all (fun e => isMatrixKey e.2.zone) = true := by decide

/-- Every borough's first registered zone is a matrix zone. -/
theorem borough_heads_valid :
    borough_mappingList.all
      (fun e =>
        match e.2.head? with
        | some z => isMatrixKey z
        | none => true) = true := by decide

set_option maxRecDepth 4000 in
/-- The proximity matrix is total: every registered zone appears in every
row. -/
theorem matrix_total :
    proximity_matrixList.all (fun r1 =>
      proximity_matrixList.all (fun r2 => (lookupStr r2.1 r1.2).isSome)) = true := by
  decide

theorem directMatch_shape {t : String} {p : Resolution}
    (h : directMatch t = some p) :
    ∃ nd, lookupStr p.key neighborhoodsList = some nd
      ∧ p.rtype = .neighborhood ∧ p.data_zone = some nd.zone := by
  unfold directMatch at h
  cases ha : lookupStr t aliasesList with
  | none => rw [ha] at h; exact absurd h (by simp)
  | some nk =>
    rw [ha] at h
    dsimp only at h
    cases hn : lookupStr nk neighborhoodsList with
    | none => rw [hn] at h; exact absurd h (by simp)
    | some nd =>
      rw [hn] at h
      simp only [Option.some.injEq] at h
      subst h
      exact ⟨nd, hn, rfl, rfl⟩

theorem aliasScan_shape {t : String} {p : Resolution} :
    ∀ {l : List (String × String)}, aliasScan t l = some p →
      ∃ nd, lookupStr p.key neighborhoodsList = some nd
        ∧ p.rtype = .neighborhood ∧ p.data_zone = some nd.zone := by
  intro l
  induction l with
  | nil => intro h; exact absurd h (by simp [aliasScan])
  | cons e rest ih =>
    intro h
    cases e with
    | mk al nk =>
      unfold aliasScan at h
      by_cases hc : (strIn al t || strIn t al) = true
      · rw [if_pos hc] at h
        cases hn : lookupStr nk neighborhoodsList with
        | none => rw [hn] at h; exact ih h
        | some nd =>
          rw [hn] at h
          simp only [Option.some.injEq] at h
          subst h
          exact ⟨nd, hn, rfl, rfl⟩
      · rw [if_neg hc] at h
        exact ih h

theorem boroughScan_shape {t : String} {p : Resolution} :
    ∀ {l : List String}, boroughScan t l = some p →
      p.rtype = .borough ∧ p.key ∈ l ∧ p.data_zone = none := by
  intro l
  induction l with
  | nil => intro h; exact absurd h (by simp [boroughScan])
  | cons b rest ih =>
    intro h
    unfold boroughScan at h
    by_cases hc : strIn b t = true
    · rw [if_pos hc] at h
      simp only [Option.some.injEq] at h
      subst h
      exact ⟨rfl, List.mem_cons_self _ _, rfl⟩
    · rw [if_neg hc] at h
      obtain ⟨h1, h2, h3⟩ := ih h
      exact ⟨h1, List.mem_cons_of_mem _ h2, h3⟩

theorem cityMatch_shape {t : String} {p : Resolution}
    (h : cityMatch t = some p) : p.rtype = .city ∧ p.data_zone = none := by
  unfold cityMatch at h
  split at h
  · simp only [Option.some.injEq] at h
    subst h
    exact ⟨rfl, rfl⟩
  · exact absurd h (by simp)

/-- Every successful parse is one of the three result shapes. -/
theorem parse_location_shape {s : String} {p : Resolution}
    (h : parse_location s = some p) :
    (∃ nd, lookupStr p.key neighborhoodsList = some nd
        ∧ p.rtype = .neighborhood ∧ p.data_zone = some nd.zone)
    ∨ (p.rtype = .borough ∧ p.key ∈ boroughNames ∧ p.data_zone = none)
    ∨ (p.rtype = .city ∧ p.data_zone = none) := by
  unfold parse_location at h
  split at h
  · exact absurd h (by simp)
  · unfold parseNormalized at h
    cases hd : directMatch (lowerStr (stripStr s)) with
    | some r =>
      rw [hd] at h
      simp only [Option.some.injEq] at h
      subst h
      exact Or.inl (directMatch_shape hd)
    | none =>
      rw [hd] at h
      cases hsc : aliasScan (lowerStr (stripStr s)) aliasesList with
      | some r =>
        rw [hsc] at h
        simp only [Option.some.injEq] at h
        subst h
        exact Or.inl (aliasScan_shape hsc)
      | none =>
        rw [hsc] at h
        cases hb : boroughScan (lowerStr (stripStr s)) boroughNames with
        | some r =>
          rw [hb] at h
          simp only [Option.some.injEq] at h
          subst h
          exact Or.inr (Or.inl (boroughScan_shape hb))
        | none =>
          rw [hb] at h
          exact Or.inr (Or.inr (cityMatch_shape h))

/-- A representative zone of any parse result is a registered matrix zone. -/
theorem reprZone_isMatrixKey {s : String} {p : Resolution} {z : String}
    (hp : parse_location s = some p) (hz : reprZone p = some z) :
    isMatrixKey z = true := by
  rcases parse_location_shape hp with ⟨nd, hnd, ht, hdz⟩ | ⟨ht, hkey, hdz⟩ | ⟨ht, hdz⟩
  · unfold reprZone at hz
    rw [ht] at hz
    rw [hdz] at hz
    simp only [Option.some.injEq] at hz
    subst hz
    have := List.all_eq_true.mp neighborhoods_zones_valid _ (lookupStr_mem hnd)
    simpa using this
  · unfold reprZone at hz
    rw [ht] at hz
    cases hl : lookupStr p.key borough_mappingList with
    | none => rw [hl] at hz; exact absurd hz (by simp)
    | some zs =>
      rw [hl] at hz
      have hb := List.all_eq_true.mp borough_heads_valid _ (lookupStr_mem hl)
      simp only [Option.getD_some] at hz
      rw [hz] at hb
      simpa using hb
  · unfold reprZone at hz
    rw [ht] at hz
    exact absurd hz (by simp)

/-- Matrix totality, in lookup form. -/
theorem matrixEntry_total {z1 z2 : String}
    (h1 : isMatrixKey z1 = true) (h2 : isMatrixKey z2 = true) :
    ∃ v, matrixEntry z1 z2 = some v := by
  unfold isMatrixKey at h1 h2
  rw [Option.isSome_iff_exists] at h1 h2
  obtain ⟨row1, hr1⟩ := h1
  obtain ⟨row2, hr2⟩ := h2
  have := List.all_eq_true.mp
    (List.all_eq_true.mp matrix_total _ (lookupStr_mem hr1)) _ (lookupStr_mem hr2)
  simp only [Option.isSome_iff_exists] at this
  obtain ⟨v, hv⟩ := this
  exact ⟨v, by unfold matrixEntry; rw [hr1]; exact hv⟩

/-! ### Stability and sortedness of the ranking step -/

theorem filter_orderedInsert (c : ℚ) (a : MatchEntry) :
    ∀ l : List MatchEntry,
      (List.orderedInsert entryGE a l).filter
          (fun m => decide (m.compatibility_score = c))
        = if a.compatibility_score = c
            then a :: l.filter (fun m => decide (m.compatibility_score = c))
            else l.filter (fun m => decide (m.compatibility_score = c)) := by
  intro l
  induction l with
  | nil =>
    rw [List.orderedInsert]
    split_ifs with h <;> simp [List.filter, h]
  | cons b t ih =>
    rw [List.orderedInsert]
    by_cases hr : entryGE a b
    · rw [if_pos hr]
      by_cases h : a.compatibility_score = c <;>
        simp [List.filter_cons, h]
    · rw [if_neg hr]
      by_cases h : a.compatibility_score = c
      · have hbne : ¬ b.compatibility_score = c := by
          intro hb
          exact hr (le_of_eq (hb.trans h.symm))
        simp [List.filter_cons, ih, h, hbne]
      · by_cases hb : b.compatibility_score = c <;>
          simp [List.filter_cons, ih, h, hb]

/-- The ranking sort is stable: entries carrying any fixed stored score
appear in the sorted list exactly as they appeared, in order, before
sorting. -/
theorem filter_insertionSort (c : ℚ) :
    ∀ l : List MatchEntry,
      (List.insertionSort entryGE l).filter
          (fun m => decide (m.compatibility_score = c))
        = l.filter (fun m => decide (m.compatibility_score = c)) := by
  intro l
  induction l with
  | nil => rfl
  | cons a t ih =>
    rw [List.insertionSort, filter_orderedInsert]
    by_cases h : a.compatibility_score = c <;>
      simp [List.filter_cons, h, ih]

/-! ### Facts about the scoring loop -/

theorem scoreEntry_pos {q : Query} {t : ℚ} {p : Profile}
    (h : t ≤ (calculate_compatibility_score q p).1) :
    scoreEntry q t p = some ⟨p, (calculate_compatibility_score q p).1,
      round3 (calculate_compatibility_score q p).1,
      (calculate_compatibility_score q p).2⟩ := by
  unfold scoreEntry
  rw [if_pos h]

theorem scoreEntry_neg {q : Query} {t : ℚ} {p : Profile}
    (h : ¬ t ≤ (calculate_compatibility_score q p).1) :
    scoreEntry q t p = none := by
  unfold scoreEntry
  rw [if_neg h]

theorem scoreEntry_some_shape {q : Query} {t : ℚ} {p : Profile} {m : MatchEntry}
    (h : scoreEntry q t p = some m) :
    t ≤ m.score ∧ m.profile = p
    ∧ m.score = (calculate_compatibility_score q p).1
    ∧ m.compatibility_score = round3 m.score := by
  unfold scoreEntry at h
  by_cases hc : t ≤ (calculate_compatibility_score q p).1
  · rw [if_pos hc] at h
    simp only [Option.some.injEq] at h
    subst h
    exact ⟨hc, rfl, rfl, rfl⟩
  · rw [if_neg hc] at h
    exact absurd h (by simp)

/-- Raising the threshold never lengthens the scored list. -/
theorem filterMap_scoreEntry_anti (q : Query) {t1 t2 : ℚ} (h : t1 ≤ t2) :
    ∀ l : List Profile,
      (l.filterMap (scoreEntry q t2)).length
        ≤ (l.filterMap (scoreEntry q t1)).length := by
  intro l
  induction l with
  | nil => simp
  | cons p rest ih =>
    rw [List.filterMap_cons, List.filterMap_cons]
    by_cases h2 : t2 ≤ (calculate_compatibility_score q p).1
    · rw [scoreEntry_pos h2, scoreEntry_pos (le_trans h h2)]
      simpa using ih
    · rw [scoreEntry_neg h2]
      cases hs : scoreEntry q t1 p with
      | none => exact ih
      | some m =>
        simp only [List.length_cons]
        exact le_trans ih (Nat.le_succ _)

/-- Every entry of the scored list comes from `scoreEntry` on some
candidate, hence reaches the threshold with its raw score. -/
theorem mem_filterMap_scoreEntry {q : Query} {t : ℚ} {m : MatchEntry}
    {l : List Profile} (h : m ∈ l.filterMap (scoreEntry q t)) :
    t ≤ m.score ∧ m.compatibility_score = round3 m.score := by
  rw [List.mem_filterMap] at h
  obtain ⟨p, _, hp⟩ := h
  obtain ⟨h1, _, _, h4⟩ := scoreEntry_some_shape hp
  exact ⟨h1, h4⟩

/-! ### Cache behaviour -/

theorem cacheLookup_append_self (k : CacheKey) (v : MatchResponse) :
    ∀ {l : List (CacheKey × MatchResponse)}, cacheLookup k l = none →
      cacheLookup k (l ++ [(k, v)]) = some v := by
  intro l
  induction l with
  | nil => intro _; simp [cacheLookup]
  | cons e rest ih =>
    intro h
    cases e with
    | mk k1 v1 =>
      by_cases hk : k = k1
      · simp [cacheLookup, hk] at h
      · simp only [cacheLookup, if_neg hk, List.cons_append] at h ⊢
        exact ih h

theorem cacheLookup_append_of_some {k : CacheKey} {v : MatchResponse}
    (e : CacheKey × MatchResponse) :
    ∀ {l : List (CacheKey × MatchResponse)}, cacheLookup k l = some v →
      cacheLookup k (l ++ [e]) = some v := by
  intro l
  induction l with
  | nil => intro h; simp [cacheLookup] at h
  | cons f rest ih =>
    intro h
    cases f with
    | mk k1 v1 =>
      by_cases hk : k = k1
      · simp only [cacheLookup, if_pos hk, List.cons_append] at h ⊢
        exact h
      · simp only [cacheLookup, if_neg hk, List.cons_append] at h ⊢
        exact ih h

/-- `find_matches` on a cache miss: the computed result, and the state
extended exactly when the cache is below its bound. -/
theorem find_matches_miss {st : MatcherState} {q : Query} {t : ℚ} {k : ℕ}
    (h : cacheLookup (q, t, k) st.cache = none) :
    find_matches st q t k
      = (computeResult st q t k,
          if st.cache.length < 100 then
            { st with cache := st.cache ++ [((q, t, k), computeResult st q t k)] }
          else st) := by
  unfold find_matches
  rw [h]

/-- `find_matches` on a cache hit: the stored result re-annotated, state
unchanged. -/
theorem find_matches_hit {st : MatcherState} {q : Query} {t : ℚ} {k : ℕ}
    {r : MatchResponse} (h : cacheLookup (q, t, k) st.cache = some r) :
    find_matches st q t k = ({ r with from_cache := true }, st) := by
  unfold find_matches
  rw [h]

/-! ### Concrete data used by witnesses and counterexamples -/

/-- A query with every optional field absent. -/
def emptyQuery : Query := ⟨[], none, none, [], none⟩

/-- A query for a bass player and nothing else. -/
def bassQuery : Query := ⟨["bass"], none, none, [], none⟩

/-- A profile playing piano only. -/
def pianoProfile : Profile := ⟨"piano-player", ["piano"], none, none, [], [], none⟩

/-- A profile playing piano and drums. -/
def pdProfile : Profile := ⟨"piano-drums", ["piano", "drums"], none, none, [], [], none⟩

/-! ### Claim theorems -/

/-- C1: for every query/profile pair, the overall compatibility score is
the weighted linear combination of the six per-factor scores with weights
0.30, 0.20, 0.15, 0.15, 0.15, 0.05 (summing to 1), and it always lies in
[0, 1]. -/
theorem C1_overall_score_weighted_bounded (q : Query) (p : Profile) :
    (calculate_compatibility_score q p).1
      = (3/10) * score_instrument_compatibility q.instruments p
        + (2/10) * score_genre_compatibility q.musical_influences p
        + (15/100) * score_location_compatibility q.location p
        + (15/100) * score_availability_compatibility q.availability p.availability
        + (15/100) * score_musical_influence_compatibility q.musical_influences p
        + (5/100) * score_collaboration_intent q.collaboration_intent
            p.collaboration_intent
    ∧ ((3 : ℚ)/10 + 2/10 + 15/100 + 15/100 + 15/100 + 5/100) = 1
    ∧ 0 ≤ (calculate_compatibility_score q p).1
    ∧ (calculate_compatibility_score q p).1 ≤ 1 := by
  obtain ⟨hi0, hi1⟩ := score_instrument_bounds q.instruments p
  obtain ⟨hg0, hg1⟩ := score_genre_bounds q.musical_influences p
  obtain ⟨hl0, hl1⟩ := score_location_bounds q.location p
  obtain ⟨ha0, ha1⟩ := score_availability_bounds q.availability p.availability
  obtain ⟨hf0, hf1⟩ := score_influence_bounds q.musical_influences p
  obtain ⟨hc0, hc1⟩ := score_intent_bounds q.collaboration_intent
    p.collaboration_intent
  have heq : (calculate_compatibility_score q p).1
      = (3/10) * score_instrument_compatibility q.instruments p
        + (2/10) * score_genre_compatibility q.musical_influences p
        + (15/100) * score_location_compatibility q.location p
        + (15/100) * score_availability_compatibility q.availability p.availability
        + (15/100) * score_musical_influence_compatibility q.musical_influences p
        + (5/100) * score_collaboration_intent q.collaboration_intent
            p.collaboration_intent := rfl
  refine ⟨heq, by norm_num, ?_, ?_⟩
  · rw [heq]
    linarith
  · rw [heq]
    linarith

/-- C4 counterexample: with query instruments `["guitar"]` and profile
instruments `["piano", "drums"]` there is no exact overlap and the groups
share a member (harmony), yet the factor score is 0.8, not the 0.7 the
claim assigns to shared group membership — the complementary pairs
(harmony, rhythm_section) and (strings, percussion) win the maximum. -/
theorem C4_counterexample :
    hasSharedInstrument ["guitar"] pdProfile.instruments = false
    ∧ anySharedGroup (instGroupsOf ["guitar"]) (profileGroups pdProfile) = true
    ∧ score_instrument_compatibility ["guitar"] pdProfile = 8/10
    ∧ ((8 : ℚ)/10) ≠ 7/10 := by
  with_unfolding_all decide

/-- C4 (amended): the instrument factor yields 1.0 on any exact
case-insensitive overlap, 0.5 on an empty query instrument list, 0.0 on an
empty profile instrument list; with both lists non-empty and no exact
overlap it yields the maximum of the group relations — 0.8 if any
query-group/profile-group pair is complementary (in either order), else
0.7 if some group is shared, else 0.0.  (When a complementary pair and a
shared group both exist, 0.8 wins; the claim's reading that shared
membership yields 0.7 holds only in the absence of a complementary
pair.) -/
theorem C4_instrument_factor_rules (qi : List String) (p : Profile) :
    (qi = [] → score_instrument_compatibility qi p = 1/2)
    ∧ (qi ≠ [] → p.instruments = [] → score_instrument_compatibility qi p = 0)
    ∧ (qi ≠ [] → p.instruments ≠ [] →
        hasSharedInstrument qi p.instruments = true →
        score_instrument_compatibility qi p = 1)
    ∧ (qi ≠ [] → p.instruments ≠ [] →
        hasSharedInstrument qi p.instruments = false →
        score_instrument_compatibility qi p =
          if anyCompGroups (instGroupsOf qi) (profileGroups p) then 8/10
          else if anySharedGroup (instGroupsOf qi) (profileGroups p) then 7/10
          else 0) := by
  refine ⟨?_, ?_, ?_, ?_⟩
  · intro h
    subst h
    rfl
  · intro h1 h2
    unfold score_instrument_compatibility
    simp [List.isEmpty_iff, h1, h2]
  · intro h1 h2 h3
    unfold score_instrument_compatibility
    simp [List.isEmpty_iff, h1, h2, h3]
  · intro h1 h2 h3
    have e1 : qi.isEmpty = false := by simp [List.isEmpty_iff, h1]
    have e2 : p.instruments.isEmpty = false := by simp [List.isEmpty_iff, h2]
    unfold score_instrument_compatibility
    rw [e1, e2, h3]
    simp only [Bool.false_eq_true, if_false]
    exact instrumentGroupScore_eq _ _

/-- C4 witness: the amended rule evaluated at the bass-vs-piano pair. -/
theorem C4_witness :
    (["bass"] : List String) ≠ []
    ∧ pianoProfile.instruments ≠ []
    ∧ hasSharedInstrument ["bass"] pianoProfile.instruments = false
    ∧ score_instrument_compatibility ["bass"] pianoProfile =
        (if anyCompGroups (instGroupsOf ["bass"]) (profileGroups pianoProfile)
          then (8 : ℚ)/10
          else if anySharedGroup (instGroupsOf ["bass"]) (profileGroups pianoProfile)
            then 7/10
            else 0) :=
  ⟨by decide, by decide, by decide,
    (C4_instrument_factor_rules ["bass"] pianoProfile).2.2.2
      (by decide) (by decide) (by decide)⟩

/-- C9: for every location string that `parse_location` resolves,
`get_proximity_score` of the string with itself is 100. -/
theorem C9_self_proximity (loc : String) (p : Resolution)
    (h : parse_location loc = some p) :
    get_proximity_score loc loc = 100 := by
  unfold get_proximity_score
  rw [h]
  dsimp only
  rw [if_pos rfl]

/-- C9 witness: the self-match at "williamsburg". -/
theorem C9_witness :
    parse_location "williamsburg"
      = some ⟨.neighborhood, "williamsburg", some "north_brooklyn", 100⟩
    ∧ get_proximity_score "williamsburg" "williamsburg" = 100 :=
  ⟨by decide,
    C9_self_proximity "williamsburg"
      ⟨.neighborhood, "williamsburg", some "north_brooklyn", 100⟩ (by decide)⟩

/-- C3 (amended): `get_proximity_score` is total and returns an integer in
[0, 100] (the return type `ℕ` gives the lower bound): 0 when either side
fails to resolve, 100 when both resolve to the identical key, and
otherwise the ProximityMatrix entry for the two representative zones —
which always exists — with 20 when either side has no representable zone.
A representative zone is a neighborhood's own zone, or the first zone
found under the resolved borough key in `borough_mapping`; the borough key
"staten island" (resolved with a space) has no entry in that mapping
(keyed "staten_island"), so borough-level Staten Island resolutions have
no representable zone and score 20 (see `C3_counterexample`). -/
theorem C3_proximity_cases (l1 l2 : String) :
    get_proximity_score l1 l2 ≤ 100
    ∧ ((parse_location l1 = none ∨ parse_location l2 = none) →
        get_proximity_score l1 l2 = 0)
    ∧ (∀ p1 p2, parse_location l1 = some p1 → parse_location l2 = some p2 →
        (p1.key = p2.key → get_proximity_score l1 l2 = 100)
        ∧ (p1.key ≠ p2.key →
            (∀ z1 z2, reprZone p1 = some z1 → reprZone p2 = some z2 →
              ∃ v, matrixEntry z1 z2 = some v ∧ get_proximity_score l1 l2 = v)
            ∧ ((reprZone p1 = none ∨ reprZone p2 = none) →
                get_proximity_score l1 l2 = 20))) := by
  refine ⟨get_proximity_score_le l1 l2, ?_, ?_⟩
  · intro h
    unfold get_proximity_score
    rcases h with h | h
    · rw [h]
    · rw [h]
      cases parse_location l1 <;> rfl
  · intro p1 p2 h1 h2
    constructor
    · intro hk
      unfold get_proximity_score
      rw [h1, h2]
      dsimp only
      rw [if_pos hk]
    · intro hk
      constructor
      · intro z1 z2 hz1 hz2
        obtain ⟨v, hv⟩ := matrixEntry_total
          (reprZone_isMatrixKey h1 hz1) (reprZone_isMatrixKey h2 hz2)
        refine ⟨v, hv, ?_⟩
        unfold get_proximity_score
        rw [h1, h2]
        dsimp only
        rw [if_neg hk, hz1, hz2]
        dsimp only
        unfold matrixEntry at hv
        cases hrow : lookupStr z1 proximity_matrixList with
        | none =>
          rw [hrow] at hv
          exact absurd hv (by simp)
        | some row =>
          rw [hrow] at hv
          dsimp only
          have hv2 : lookupStr z2 row = some v := by simpa using hv
          rw [hv2]
          rfl
      · intro hz
        unfold get_proximity_score
        rw [h1, h2]
        dsimp only
        rw [if_neg hk]
        rcases hz with hz | hz
        · rw [hz]
        · rw [hz]
          cases reprZone p1 <;> rfl

set_option maxRecDepth 4000 in
/-- C3 counterexample: "staten island" resolves at borough level with key
"staten island" and "williamsburg" to a distinct neighborhood key, both
sides have a first-registered zone in the claim's sense (staten_island,
north_brooklyn) whose matrix entry is 25 — but the code returns 20,
because `borough_mapping` is keyed "staten_island" and the lookup of
"staten island" finds nothing. -/
theorem C3_counterexample :
    get_proximity_score "staten island" "williamsburg" = 20
    ∧ (∃ p1 p2, parse_location "staten island" = some p1
        ∧ parse_location "williamsburg" = some p2
        ∧ p1.key ≠ p2.key
        ∧ claimReprZone p1 = some "staten_island"
        ∧ claimReprZone p2 = some "north_brooklyn")
    ∧ matrixEntry "staten_island" "north_brooklyn" = some 25
    ∧ claimProximityScore "staten island" "williamsburg" = 25
    ∧ (20 : ℕ) ≠ 25 := by
  refine ⟨by decide,
    ⟨⟨.borough, "staten island", none, 60⟩,
     ⟨.neighborhood, "williamsburg", some "north_brooklyn", 100⟩,
     by decide, by decide, by decide, by decide, by decide⟩,
    by decide, by decide, by decide⟩

set_option maxRecDepth 4000 in
/-- C3 witness: the case theorem applied at "harlem" vs "astoria"
(distinct keys, zones upper_manhattan and west_queens, matrix entry 60). -/
theorem C3_witness :
    get_proximity_score "harlem" "astoria" ≤ 100
    ∧ get_proximity_score "harlem" "astoria" = 60 := by
  constructor
  · exact (C3_proximity_cases "harlem" "astoria").1
  · obtain ⟨v, hv, he⟩ :=
      (((C3_proximity_cases "harlem" "astoria").2.2
        ⟨.neighborhood, "harlem", some "upper_manhattan", 100⟩
        ⟨.neighborhood, "astoria", some "west_queens", 100⟩
        (by decide) (by decide)).2 (by decide)).1
        "upper_manhattan" "west_queens" (by decide) (by decide)
    have h60 : matrixEntry "upper_manhattan" "west_queens" = some 60 := by decide
    rw [h60] at hv
    rw [he, ← Option.some.inj hv]

/-- C5: for a fixed query, profile set and result cap, starting from an
empty cache, raising `min_compatibility` never increases `total_found`. -/
theorem C5_threshold_monotone (profiles : List Profile) (q : Query) (k : ℕ)
    (t1 t2 : ℚ) (h : t1 ≤ t2) :
    (find_matches ⟨profiles, []⟩ q t2 k).1.total_found
      ≤ (find_matches ⟨profiles, []⟩ q t1 k).1.total_found := by
  rw [@find_matches_miss ⟨profiles, []⟩ q t2 k rfl,
    @find_matches_miss ⟨profiles, []⟩ q t1 k rfl]
  dsimp [computeResult]
  rw [List.length_take, List.length_take]
  apply min_le_min le_rfl
  unfold rankedMatches
  rw [(List.perm_insertionSort entryGE _).length_eq,
    (List.perm_insertionSort entryGE _).length_eq]
  unfold scoredMatches
  exact filterMap_scoreEntry_anti q h _

/-- C5 witness: thresholds 0.5 ≤ 0.7 on a one-profile set. -/
theorem C5_witness :
    ((1 : ℚ)/2 ≤ 7/10)
    ∧ (find_matches ⟨[pianoProfile], []⟩ emptyQuery (7/10) 20).1.total_found
        ≤ (find_matches ⟨[pianoProfile], []⟩ emptyQuery (1/2) 20).1.total_found :=
  ⟨by norm_num,
    C5_threshold_monotone [pianoProfile] emptyQuery 20 (1/2) (7/10) (by norm_num)⟩

/-- C6: every non-cached `find_matches` result is the stable descending
sort of the thresholded candidates truncated to `max_results`: the match
list is the `max_results`-prefix of the ranked list, the ranked list is
sorted descending by stored compatibility score, ties keep candidate
iteration order (entries of any fixed stored score appear exactly in their
pre-sort order), at most `max_results` entries are returned, and every
returned entry's raw score reaches `min_compatibility`. -/
theorem C6_ranking (st : MatcherState) (q : Query) (t : ℚ) (k : ℕ)
    (hmiss : cacheLookup (q, t, k) st.cache = none) :
    (find_matches st q t k).1.matchList
        = (rankedMatches st.profiles q t).take k
    ∧ List.Sorted entryGE (rankedMatches st.profiles q t)
    ∧ (∀ c : ℚ,
        (rankedMatches st.profiles q t).filter
            (fun m => decide (m.compatibility_score = c))
          = (scoredMatches st.profiles q t).filter
              (fun m => decide (m.compatibility_score = c)))
    ∧ (find_matches st q t k).1.matchList.length ≤ k
    ∧ (∀ m ∈ (find_matches st q t k).1.matchList, t ≤ m.score) := by
  rw [find_matches_miss hmiss]
  refine ⟨rfl, List.sorted_insertionSort entryGE _,
    fun c => filter_insertionSort c _, ?_, ?_⟩
  · dsimp [computeResult]
    rw [List.length_take]
    exact min_le_left _ _
  · intro m hm
    dsimp [computeResult] at hm
    have hm2 : m ∈ rankedMatches st.profiles q t := List.mem_of_mem_take hm
    have hm3 : m ∈ scoredMatches st.profiles q t :=
      ((List.perm_insertionSort entryGE _).mem_iff).mp hm2
    exact (mem_filterMap_scoreEntry hm3).1

/-- C6 witness: a concrete non-cached invocation obeys the cap. -/
theorem C6_witness :
    cacheLookup (emptyQuery, 0, 1) ([] : List (CacheKey × MatchResponse)) = none
    ∧ (find_matches ⟨[pianoProfile, pdProfile], []⟩ emptyQuery 0 1).1.matchList.length ≤ 1 :=
  ⟨rfl, (C6_ranking ⟨[pianoProfile, pdProfile], []⟩ emptyQuery 0 1 rfl).2.2.2.1⟩

/-- C7 (amended): when the cache holds fewer than 100 entries and the
fingerprint is not yet cached, the first invocation computes and stores
its result, and a second identical invocation is served from the cache,
annotated `from_cache`, with match list (profiles and scores) and
`total_found` identical to the fresh, non-cached computation. -/
theorem C7_cache_hit_consistent (st : MatcherState) (q : Query) (t : ℚ) (k : ℕ)
    (hlen : st.cache.length < 100)
    (hmiss : cacheLookup (q, t, k) st.cache = none) :
    (find_matches st q t k).1 = computeResult st q t k
    ∧ (find_matches (find_matches st q t k).2 q t k).1.from_cache = true
    ∧ (find_matches (find_matches st q t k).2 q t k).1.matchList
        = (computeResult st q t k).matchList
    ∧ (find_matches (find_matches st q t k).2 q t k).1.total_found
        = (computeResult st q t k).total_found := by
  rw [find_matches_miss hmiss]
  dsimp only
  rw [if_pos hlen]
  have hhit : cacheLookup (q, t, k)
      (st.cache ++ [((q, t, k), computeResult st q t k)])
        = some (computeResult st q t k) :=
    cacheLookup_append_self _ _ hmiss
  rw [find_matches_hit hhit]
  exact ⟨rfl, rfl, rfl, rfl⟩

/-- C7 witness: the repeat of a concrete query is served from the cache. -/
theorem C7_witness :
    (([] : List (CacheKey × MatchResponse)).length < 100)
    ∧ (find_matches (find_matches ⟨[], []⟩ emptyQuery (7/10) 20).2
        emptyQuery (7/10) 20).1.from_cache = true :=
  ⟨by norm_num,
    (C7_cache_hit_consistent ⟨[], []⟩ emptyQuery (7/10) 20 (by norm_num) rfl).2.1⟩

/-- A matcher state whose cache has been filled by 100 ordinary
invocations with 100 distinct thresholds (all against an empty profile
set), exercising the store step of `find_matches` each time. -/
def fullCacheState : MatcherState :=
  (List.range 100).foldl
    (fun st i => (find_matches st emptyQuery (i : ℚ) 20).2)
    ⟨[], []⟩

set_option maxRecDepth 20000 in
/-- C7 counterexample: once the cache holds 100 entries, a pair of
identical invocations is *not* served from the cache — the second
invocation recomputes and is not annotated as cache-sourced, refuting the
claim's unconditional "the second invocation is served from the cache". -/
theorem C7_counterexample :
    fullCacheState.cache.length = 100
    ∧ cacheLookup (emptyQuery, (1 : ℚ)/2, 20) fullCacheState.cache = none
    ∧ (find_matches (find_matches fullCacheState emptyQuery ((1 : ℚ)/2) 20).2
        emptyQuery ((1 : ℚ)/2) 20).1.from_cache = false := by
  with_unfolding_all decide

/-- C10: the query cache never grows past 100 entries, no stored entry is
ever evicted or overwritten, and once the cache holds 100 entries an
uncached invocation still computes and returns the normal result while
leaving the cache untouched. -/
theorem C10_cache_bound (st : MatcherState) (q : Query) (t : ℚ) (k : ℕ) :
    (st.cache.length ≤ 100 → (find_matches st q t k).2.cache.length ≤ 100)
    ∧ (∀ (key : CacheKey) (v : MatchResponse),
        cacheLookup key st.cache = some v →
        cacheLookup key (find_matches st q t k).2.cache = some v)
    ∧ (100 ≤ st.cache.length →
        (find_matches st q t k).2 = st
        ∧ (cacheLookup (q, t, k) st.cache = none →
            (find_matches st q t k).1 = computeResult st q t k)) := by
  cases hc : cacheLookup (q, t, k) st.cache with
  | some r =>
    rw [find_matches_hit hc]
    refine ⟨fun h => h, fun key v hv => hv, fun _ => ⟨rfl, fun hn => ?_⟩⟩
    exact absurd hn (by simp)
  | none =>
    rw [find_matches_miss hc]
    dsimp only
    by_cases hlen : st.cache.length < 100
    · rw [if_pos hlen]
      refine ⟨?_, ?_, ?_⟩
      · intro _
        dsimp only
        rw [List.length_append, List.length_singleton]
        omega
      · intro key v hv
        exact cacheLookup_append_of_some _ hv
      · intro h100
        exact absurd hlen (by omega)
    · rw [if_neg hlen]
      exact ⟨fun h => h, fun key v hv => hv, fun _ => ⟨rfl, fun _ => rfl⟩⟩

set_option maxRecDepth 20000 in
/-- C10 witness: the bound holds from the empty cache and the full cache
is left untouched by a further invocation. -/
theorem C10_witness :
    ([] : List (CacheKey × MatchResponse)).length ≤ 100
    ∧ (find_matches ⟨[], []⟩ emptyQuery 0 20).2.cache.length ≤ 100
    ∧ 100 ≤ fullCacheState.cache.length
    ∧ (find_matches fullCacheState emptyQuery ((1 : ℚ)/2) 20).2 = fullCacheState :=
  ⟨by norm_num,
   (C10_cache_bound ⟨[], []⟩ emptyQuery 0 20).1 (by norm_num),
   by with_unfolding_all decide,
   ((C10_cache_bound fullCacheState emptyQuery ((1 : ℚ)/2) 20).2.2
     (by with_unfolding_all decide)).1⟩

/-- C2: the pre-filter is *not* equivalent to scoring all profiles: a bass
query against a piano-only profile shares no instrument and no instrument
group (query groups rhythm_section/strings, profile groups
harmony/keyboards), so the pre-filter excludes the profile, yet the scorer
rates the pair 0.8 on the instrument factor via the complementary pair
(rhythm_section, harmony) and 0.6 overall — so at threshold 0.5,
`find_matches` returns nothing while the pipeline without the pre-filter
returns the profile.  The code's own comment ("Include if shared
instruments OR complementary instrument groups") describes the intended
complementary check that is missing. -/
theorem C2_prefilter_drops_complementary :
    candidateFilter [pianoProfile] bassQuery = []
    ∧ hasSharedInstrument bassQuery.instruments pianoProfile.instruments = false
    ∧ score_instrument_compatibility bassQuery.instruments pianoProfile = 8/10
    ∧ (calculate_compatibility_score bassQuery pianoProfile).1 = 3/5
    ∧ (find_matches ⟨[pianoProfile], []⟩ bassQuery ((1 : ℚ)/2) 20).1.total_found = 0
    ∧ (computeResultUnfiltered ⟨[pianoProfile], []⟩ bassQuery ((1 : ℚ)/2) 20).total_found = 1 := by
  with_unfolding_all decide

/-- C8 (amended): the `/match` endpoint rejects any request whose
`min_compatibility` lies outside [0, 1] or whose `max_results` lies
outside [1, 100] with an explicit validation error before `find_matches`
runs; the `/match/quick` endpoint performs no such validation and passes
both parameters straight to the matching pipeline (see
`C8_counterexample`), as does `find_matches` itself. -/
theorem C8_match_endpoint_validates (st : MatcherState) (q : Query)
    (t : ℚ) (k : ℕ)
    (h : t < 0 ∨ 1 < t ∨ k < 1 ∨ 100 < k) :
    isRejected (matchEndpoint st q t k) = true := by
  unfold matchEndpoint
  rcases h with h | h | h | h
  · rw [if_pos (Or.inl h)]
    rfl
  · rw [if_pos (Or.inr h)]
    rfl
  · by_cases h1 : t < 0 ∨ 1 < t
    · rw [if_pos h1]
      rfl
    · rw [if_neg h1, if_pos (Or.inl h)]
      rfl
  · by_cases h1 : t < 0 ∨ 1 < t
    · rw [if_pos h1]
      rfl
    · rw [if_neg h1, if_pos (Or.inr h)]
      rfl

/-- C8 witness: `/match` rejects `min_compatibility = 1.5`. -/
theorem C8_witness :
    ((3 : ℚ)/2 < 0 ∨ 1 < (3 : ℚ)/2 ∨ (20 : ℕ) < 1 ∨ 100 < (20 : ℕ))
    ∧ isRejected (matchEndpoint ⟨[], []⟩ emptyQuery (3/2) 20) = true :=
  ⟨Or.inr (Or.inl (by norm_num)),
    C8_match_endpoint_validates ⟨[], []⟩ emptyQuery (3/2) 20
      (Or.inr (Or.inl (by norm_num)))⟩

/-- C8 counterexample: `/match/quick` does not reject an out-of-range
`min_compatibility = 1.5`; it runs the pipeline and answers normally, so
the claim's "the system rejects the request ... before the matching
pipeline runs" fails for this endpoint. -/
theorem C8_counterexample :
    isRejected (quickMatchEndpoint ⟨[], []⟩ emptyQuery ((3 : ℚ)/2) 20) = false
    ∧ (1 : ℚ) < 3/2
    ∧ quickMatchEndpoint ⟨[], []⟩ emptyQuery ((3 : ℚ)/2) 20
        = .ok (find_matches ⟨[], []⟩ emptyQuery ((3 : ℚ)/2) 20) :=
  ⟨rfl, by norm_num, rfl⟩
